import Mathlib

/-!
Shallow embedding of the pirate-hunter game backend (src/backend/main.py).

Time is modelled as ℚ (seconds); Python floats along the checked paths are
exact in ℚ for the inputs that occur (integer seconds divided by the round
duration), and `int()` truncation is modelled by `pyInt`.  Python dicts keyed
by strings are modelled as functions `String → Option _` (or `String → ℤ`
with default 0 for the redis sorted set, matching ZINCRBY's treatment of
absent members).  Stateful handlers are modelled as explicit state-passing
functions that also return the effect lists (replies, broadcasts, score
updates) they would emit.
-/

/-- Constant `ROUND_DURATION_SECONDS = 60` (main.py line 24). -/
def ROUND_DURATION_SECONDS : ℕ := 60

/-- Constant `CARD_COUNT = 20` (main.py line 25). -/
def CARD_COUNT : ℕ := 20

/-- Constant `COOLDOWN_SECONDS = 0.3` (main.py line 27). -/
def COOLDOWN_SECONDS : ℚ := 3 / 10

/-- Python `int()` applied to a real quantity: truncation toward zero. -/
def pyInt (q : ℚ) : ℤ := if 0 ≤ q then ⌊q⌋ else ⌈q⌉

/-- Python `dict.get(k, default)` for an int-keyed int-valued dict literal,
written as an association list in source order. -/
def dictGet (d : List (ℤ × ℤ)) (k : ℤ) (default : ℤ) : ℤ :=
  match d.find? (fun p => p.1 == k) with
  | some p => p.2
  | none => default

/-- Pydantic model `OfferCard` (main.py lines 30-41). `priceBRL` fields are
floats in source, modelled as ℚ; no claim touches their arithmetic. -/
structure OfferCard where
  id : String
  product : String
  brand : String
  priceBRL : ℚ
  originalPriceBRL : Option ℚ
  shippingInfo : String
  description : String
  photos : ℤ
  signals : List String
  label : String
  difficulty : ℤ
deriving DecidableEq

/-- Mutable fields of class `GameState` (main.py lines 43-47); the asyncio
lock is modelled separately by the effect traces below. -/
structure GameState where
  cards : List OfferCard
  round_end_time : Option ℚ
deriving DecidableEq

/-- Method `GameState.is_round_active` (main.py lines 49-50):
`self.round_end_time is not None and datetime.utcnow() < self.round_end_time`.
The current clock reading is passed explicitly as `now`. -/
def is_round_active (gs : GameState) (now : ℚ) : Bool :=
  match gs.round_end_time with
  | none => false
  | some e => decide (now < e)

/-- Method `GameState.get_time_remaining` (main.py lines 52-55): returns 0
when the round is inactive, otherwise `int((end - now).total_seconds())`.
The inner `none` branch is unreachable (activity implies an expiration). -/
def get_time_remaining (gs : GameState) (now : ℚ) : ℤ :=
  if is_round_active gs now then
    match gs.round_end_time with
    | some e => pyInt (e - now)
    | none => 0
  else 0

/-- Method `ConnectionManager.is_on_cooldown` (main.py lines 88-94).  The
dict `last_click_time` is passed in and the (possibly updated) dict is
returned alongside the boolean: `True` (reject) leaves the dict untouched,
every other path stamps `client_id` with `now` and returns `False`. -/
def is_on_cooldown (last_click_time : String → Option ℚ) (now : ℚ) (client_id : String) :
    Bool × (String → Option ℚ) :=
  match last_click_time client_id with
  | some last_click =>
      if now - last_click < COOLDOWN_SECONDS then
        (true, last_click_time)
      else
        (false, fun x => if x == client_id then some now else last_click_time x)
  | none => (false, fun x => if x == client_id then some now else last_click_time x)

/-- Function `update_score` (main.py lines 182-186): redis `ZINCRBY` on
member `client_id:nickname`; absent members count as 0.  Returns the new
score and the updated leaderboard. -/
def update_score (leaderboard : String → ℤ) (client_id nickname : String)
    (score_change : ℤ) : ℤ × (String → ℤ) :=
  let member := client_id ++ ":" ++ nickname
  let new_score := leaderboard member + score_change
  (new_score, fun x => if x == member then new_score else leaderboard x)

/-- Function `calculate_score` (main.py lines 189-202).  The global
`game_state` read by `get_time_remaining` is passed as `gs`/`now`.  Note the
penalty dict is written with keys `-1, -2, -3` exactly as in source. -/
def calculate_score (gs : GameState) (now : ℚ) (guess : String) (card : OfferCard) : ℤ :=
  let correct_label := card.label
  let is_correct := guess == correct_label
  if is_correct then
    let base_score := dictGet [(1, 30), (2, 60), (3, 100)] card.difficulty 30
    let time_left := get_time_remaining gs now
    let time_bonus := pyInt ((base_score : ℚ) * ((time_left : ℚ) / (ROUND_DURATION_SECONDS : ℚ)))
    base_score + time_bonus
  else
    dictGet [(-1, -20), (-2, -30), (-3, -40)] card.difficulty (-20)

/-- One attempted `ws.send_json` inside a broadcast (main.py line 101): a
faulty transport raises, a healthy one appends the message to that session's
inbox. -/
def send_json (faulty : String → Bool) (inboxes : String → List String)
    (client_id : String) (message : String) : Except String (String → List String) :=
  if faulty client_id then Except.error "ConnectionClosedError"
  else Except.ok (fun x => if x == client_id then inboxes client_id ++ [message] else inboxes x)

/-- Processing of the task list by `asyncio.gather(*tasks,
return_exceptions=True)` (main.py line 104): every task is attempted, each
exception is captured as a value in the result list, none propagates. -/
def gatherSends (faulty : String → Bool) (message : String) :
    List String → (String → List String) → (String → List String) × List (Except String Unit)
  | [], inboxes => (inboxes, [])
  | c :: rest, inboxes =>
      match send_json faulty inboxes c message with
      | Except.ok f =>
          let r := gatherSends faulty message rest f
          (r.1, Except.ok () :: r.2)
      | Except.error e =>
          let r := gatherSends faulty message rest inboxes
          (r.1, Except.error e :: r.2)

/-- Method `ConnectionManager.broadcast` (main.py lines 96-104): early return
on an empty registry, otherwise one send task per registered session gathered
with `return_exceptions=True`.  `conns` is the list of registered session
ids (dict keys, hence assumed distinct where it matters). -/
def broadcast (conns : List String) (faulty : String → Bool) (message : String)
    (inboxes : String → List String) : (String → List String) × List (Except String Unit) :=
  if conns.isEmpty then (inboxes, [])
  else gatherSends faulty message conns inboxes

/-- Inbound guess message: presence/absence of the `action` and `card_id`
keys of the received JSON object (main.py line 257). -/
structure InMsg where
  action : Option String
  card_id : Option String
deriving DecidableEq

/-- Outbound messages emitted by the guess handler (main.py lines 261, 265,
279-286, 290), with payloads reduced to the fields the claims mention. -/
inductive OutMsg where
  | error (message : String)
  | feedback (card_id : String) (correct : Bool) (correct_label : String)
      (score_change : ℤ) (new_total_score : ℤ)
  | leaderboard_update
deriving DecidableEq

/-- Predicate picking out feedback messages. -/
def is_feedback : OutMsg → Bool
  | OutMsg.feedback _ _ _ _ _ => true
  | _ => false

/-- Server-side state touched by one iteration of the websocket receive loop:
the shared `game_state`, the manager's `last_click_time` dict, and the redis
leaderboard. -/
structure ServerState where
  game : GameState
  last_click_time : String → Option ℚ
  leaderboard : String → ℤ

/-- Result of handling one inbound message: the new state plus the effect
lists (replies sent only to this session, broadcasts to everyone, and the
`update_score` calls performed). -/
structure HandleResult where
  state : ServerState
  replies : List OutMsg
  broadcasts : List OutMsg
  score_updates : List (String × String × ℤ)

/-- One iteration of the message loop of `websocket_endpoint` (main.py lines
255-290): key validation, round-active check, cooldown check-and-stamp, card
lookup, then scoring, leaderboard update, personal feedback and leaderboard
broadcast.  Branches that `continue` produce empty effect lists. -/
def handle_message (st : ServerState) (now : ℚ) (client_id nickname : String)
    (data : InMsg) : HandleResult :=
  match data.action, data.card_id with
  | some action, some card_id =>
      if is_round_active st.game now = false then
        { state := st, replies := [OutMsg.error "Round not active."],
          broadcasts := [], score_updates := [] }
      else
        match is_on_cooldown st.last_click_time now client_id with
        | (true, _) =>
            { state := st, replies := [OutMsg.error "Cooldown active."],
              broadcasts := [], score_updates := [] }
        | (false, stamped) =>
            let guess := if action == "approve" then "legitimo" else "pirata"
            match st.game.cards.find? (fun c => c.id == card_id) with
            | none =>
                { state := { st with last_click_time := stamped },
                  replies := [], broadcasts := [], score_updates := [] }
            | some card =>
                let score_change := calculate_score st.game now guess card
                let upd := update_score st.leaderboard client_id nickname score_change
                { state := { st with last_click_time := stamped, leaderboard := upd.2 },
                  replies := [OutMsg.feedback card_id (decide (score_change > 0))
                    card.label score_change upd.1],
                  broadcasts := [OutMsg.leaderboard_update],
                  score_updates := [(client_id, nickname, score_change)] }
  | _, _ => { state := st, replies := [], broadcasts := [], score_updates := [] }

/-- Effects of `start_new_round` in program order (main.py lines 204-220). -/
inductive RoundEffect where
  | acquire_lock
  | reset_leaderboard
  | generate_deck
  | set_expiration
  | broadcast_new_round
  | release_lock
deriving DecidableEq, BEq

/-- Effect trace of `start_new_round` (main.py lines 204-220): enter the
`game_state.lock` critical section, delete the redis leaderboard key,
generate the deck, set `round_end_time = now + ROUND_DURATION_SECONDS`,
broadcast `new_round`, leave the critical section. -/
def start_new_round_trace : List RoundEffect :=
  [RoundEffect.acquire_lock, RoundEffect.reset_leaderboard, RoundEffect.generate_deck,
   RoundEffect.set_expiration, RoundEffect.broadcast_new_round, RoundEffect.release_lock]

/-- Broadcast events of the round lifecycle loop. -/
inductive LoopEvent where
  | new_round
  | round_end
deriving DecidableEq

/-- Broadcast events of one iteration of `game_loop` (main.py lines 222-232):
`start_new_round` broadcasts `new_round`, then after the round duration the
loop broadcasts `round_end`, then pauses and repeats. -/
def game_loop_iteration : List LoopEvent :=
  [LoopEvent.new_round, LoopEvent.round_end]

/-- Broadcast trace of the first `n` iterations of `game_loop`. -/
def game_loop_trace (n : ℕ) : List LoopEvent :=
  (List.replicate n game_loop_iteration).flatten

/-- Sample card with the given label and difficulty, used in concrete
evaluations. -/
def mkCard (label : String) (difficulty : ℤ) : OfferCard :=
  { id := "card-1", product := "camiseta", brand := "marca", priceBRL := 50,
    originalPriceBRL := none, shippingInfo := "envio", description := "desc",
    photos := 0, signals := [], label := label, difficulty := difficulty }

/-- Sample game state holding no cards and the given expiration. -/
def gsAt (e : ℚ) : GameState := { cards := [], round_end_time := some e }

/-- Base reward by difficulty as the spec words it (`base(1)=30, base(2)=60,
base(3)=100`); spec-side definition, to be compared with the reward branch of
`calculate_score`. -/
def spec_base (d : ℤ) : ℤ := if d = 1 then 30 else if d = 2 then 60 else 100

/-- C1: the spec claims the incorrect-guess penalty is -20, -30, -40 for
difficulty 1, 2, 3.  The penalty dict in `calculate_score` is keyed by
`-1, -2, -3`, so a card difficulty of 1, 2 or 3 never matches a key and the
`.get` default -20 is returned for every difficulty, at every time. -/
theorem C1_penalty_always_default (gs : GameState) (now : ℚ) :
    calculate_score gs now "pirata" (mkCard "legitimo" 1) = -20 ∧
    calculate_score gs now "pirata" (mkCard "legitimo" 2) = -20 ∧
    calculate_score gs now "pirata" (mkCard "legitimo" 3) = -20 := by
  refine ⟨rfl, rfl, rfl⟩

/-- C2: for a correct guess on a card of difficulty 1, 2 or 3, with the time
remaining in `[0, ROUND_DURATION_SECONDS]`, the score delta equals
`base(d) + floor(base(d) * timeRemaining / roundDuration)`. -/
theorem C2_correct_guess_score (gs : GameState) (now : ℚ) (guess : String)
    (card : OfferCard)
    (hguess : guess = card.label)
    (hd : card.difficulty = 1 ∨ card.difficulty = 2 ∨ card.difficulty = 3)
    (ht0 : 0 ≤ get_time_remaining gs now)
    (_ht1 : get_time_remaining gs now ≤ (ROUND_DURATION_SECONDS : ℤ)) :
    calculate_score gs now guess card =
      spec_base card.difficulty +
        ⌊((spec_base card.difficulty : ℚ) * (get_time_remaining gs now : ℚ)) /
          (ROUND_DURATION_SECONDS : ℚ)⌋ := by
  have htq : (0 : ℚ) ≤ (get_time_remaining gs now : ℤ) := by exact_mod_cast ht0
  rcases hd with h | h | h <;>
    · simp only [calculate_score, hguess, beq_self_eq_true, if_true, h, dictGet,
        spec_base, pyInt]
      norm_num
      rw [if_pos (by positivity), mul_div_assoc]

/-- C2 witness: the spec's two worked examples.  A round expiring 60 seconds
from now gives `timeRemaining = 60`, so a correct difficulty-1 guess scores
`30 + floor(30*60/60)`; a round expiring half a second from now gives
`timeRemaining = 0`, so a correct difficulty-3 guess scores `100 + 0`. -/
theorem C2_correct_guess_score_witness :
    calculate_score (gsAt 60) 0 "legitimo" (mkCard "legitimo" 1) = 60 ∧
    calculate_score (gsAt (1/2)) 0 "legitimo" (mkCard "legitimo" 3) = 100 := by
  have ht60 : get_time_remaining (gsAt 60) 0 = 60 := by
    norm_num [get_time_remaining, is_round_active, gsAt, pyInt, decide_eq_true_eq]
  have ht0 : get_time_remaining (gsAt (1/2)) 0 = 0 := by
    norm_num [get_time_remaining, is_round_active, gsAt, pyInt, decide_eq_true_eq]
  constructor
  · have h := C2_correct_guess_score (gsAt 60) 0 "legitimo" (mkCard "legitimo" 1)
      rfl (Or.inl rfl) (by rw [ht60]; norm_num) (by rw [ht60]; norm_num [ROUND_DURATION_SECONDS])
    rw [h, ht60]
    norm_num [spec_base, mkCard, ROUND_DURATION_SECONDS]
  · have h := C2_correct_guess_score (gsAt (1/2)) 0 "legitimo" (mkCard "legitimo" 3)
      rfl (Or.inr (Or.inr rfl)) (by rw [ht0]) (by rw [ht0]; norm_num [ROUND_DURATION_SECONDS])
    rw [h, ht0]
    norm_num [spec_base, mkCard, ROUND_DURATION_SECONDS]

/-- C5 counterexample: the claim orders the round-start steps as deck request
first, leaderboard reset second; in `start_new_round` the leaderboard reset
(redis delete) precedes the deck request, so the claimed order is false. -/
theorem C5_counterexample :
    decide (start_new_round_trace.indexOf RoundEffect.generate_deck <
      start_new_round_trace.indexOf RoundEffect.reset_leaderboard) = false := by
  decide

/-- C5 amended: every round start, inside one exclusive critical section,
first resets the external leaderboard, then requests a deck from the
generator, then sets the expiration to now plus the round duration, then
broadcasts the new round. -/
theorem C5_round_start_order :
    start_new_round_trace.indexOf RoundEffect.acquire_lock <
      start_new_round_trace.indexOf RoundEffect.reset_leaderboard ∧
    start_new_round_trace.indexOf RoundEffect.reset_leaderboard <
      start_new_round_trace.indexOf RoundEffect.generate_deck ∧
    start_new_round_trace.indexOf RoundEffect.generate_deck <
      start_new_round_trace.indexOf RoundEffect.set_expiration ∧
    start_new_round_trace.indexOf RoundEffect.set_expiration <
      start_new_round_trace.indexOf RoundEffect.broadcast_new_round ∧
    start_new_round_trace.indexOf RoundEffect.broadcast_new_round <
      start_new_round_trace.indexOf RoundEffect.release_lock := by
  decide

/-- C7: `is_round_active` is false exactly when no round has ever started or
the current time is at or past the expiration; `get_time_remaining` returns 0
whenever the round is inactive and otherwise the integer (floor) seconds
until expiration; both read only the stored expiration and the clock. -/
theorem C7_active_and_time_remaining (gs : GameState) (now : ℚ) :
    (is_round_active gs now = false ↔
      gs.round_end_time = none ∨ ∃ e, gs.round_end_time = some e ∧ e ≤ now) ∧
    (is_round_active gs now = false → get_time_remaining gs now = 0) ∧
    (∀ e, gs.round_end_time = some e → is_round_active gs now = true →
      get_time_remaining gs now = ⌊e - now⌋) := by
  rcases hgs : gs.round_end_time with _ | e
  · refine ⟨?_, ?_, ?_⟩
    · simp [is_round_active, hgs]
    · intro _; simp [get_time_remaining, is_round_active, hgs]
    · intro e he _; exact absurd he (by simp)
  · refine ⟨?_, ?_, ?_⟩
    · simp only [is_round_active, hgs]
      constructor
      · intro hle
        refine Or.inr ⟨e, rfl, ?_⟩
        simpa [not_lt] using hle
      · rintro (hnone | ⟨f, hf, hle⟩)
        · exact absurd hnone (by simp)
        · injection hf with hef; subst hef
          simp [not_lt, hle]
    · intro hfalse
      simp [get_time_remaining, hfalse]
    · intro f hf hactive
      injection hf with hef; subst hef
      have hlt : now < e := by
        simpa [is_round_active, hgs] using hactive
      have hpos : (0 : ℚ) ≤ e - now := by linarith
      simp only [get_time_remaining, hactive, eq_self_iff_true, if_true, hgs, pyInt]
      rw [if_pos hpos]

/-- C7 witness: with expiration 10 and clock 3 the round is active and
`get_time_remaining` evaluates to `⌊10 - 3⌋`. -/
theorem C7_active_and_time_remaining_witness :
    get_time_remaining (gsAt 10) 3 = ⌊(10 : ℚ) - 3⌋ :=
  (C7_active_and_time_remaining (gsAt 10) 3).2.2 10 rfl (by decide)

/-- Accepting call of `is_on_cooldown`: the returned dict stamps the session
with the call's clock reading. -/
theorem is_on_cooldown_accept_stamp (m : String → Option ℚ) (t : ℚ) (cid : String)
    (h : (is_on_cooldown m t cid).1 = false) :
    (is_on_cooldown m t cid).2 cid = some t := by
  rcases hm : m cid with _ | last_click
  · simp [is_on_cooldown, hm]
  · by_cases hc : t - last_click < COOLDOWN_SECONDS
    · exfalso
      simp [is_on_cooldown, hm, hc] at h
    · simp [is_on_cooldown, hm, hc]

/-- C4: the cooldown check is one atomic check-and-stamp: a call within the
cooldown interval of the stored stamp rejects and leaves the dict untouched;
any other call (no prior stamp, or at least the interval elapsed) accepts and
stamps the current time.  Consequently, after an accepted action at `t1`, a
second action at `t2` with `t2 - t1` below the interval is rejected with the
stamp unchanged, and with `t2 - t1` at least the interval it is accepted. -/
theorem C4_cooldown_check_and_stamp (m : String → Option ℚ) (t1 t2 : ℚ) (cid : String) :
    (∀ last_click, m cid = some last_click → t1 - last_click < COOLDOWN_SECONDS →
        is_on_cooldown m t1 cid = (true, m)) ∧
    ((m cid = none ∨ ∃ last_click, m cid = some last_click ∧
          COOLDOWN_SECONDS ≤ t1 - last_click) →
        (is_on_cooldown m t1 cid).1 = false ∧
        (is_on_cooldown m t1 cid).2 cid = some t1) ∧
    ((is_on_cooldown m t1 cid).1 = false →
      (t2 - t1 < COOLDOWN_SECONDS →
        is_on_cooldown (is_on_cooldown m t1 cid).2 t2 cid =
          (true, (is_on_cooldown m t1 cid).2)) ∧
      (COOLDOWN_SECONDS ≤ t2 - t1 →
        (is_on_cooldown (is_on_cooldown m t1 cid).2 t2 cid).1 = false)) := by
  refine ⟨?_, ?_, ?_⟩
  · intro last_click hm hlt
    simp [is_on_cooldown, hm, hlt]
  · rintro (hm | ⟨last_click, hm, hge⟩)
    · constructor <;> simp [is_on_cooldown, hm]
    · have hnot : ¬ (t1 - last_click < COOLDOWN_SECONDS) := not_lt.mpr hge
      constructor <;> simp [is_on_cooldown, hm, hnot]
  · intro hacc
    have hstamp := is_on_cooldown_accept_stamp m t1 cid hacc
    generalize hg : (is_on_cooldown m t1 cid).2 = m2 at hstamp ⊢
    constructor
    · intro hlt
      simp [is_on_cooldown, hstamp, hlt]
    · intro hge
      have hnot : ¬ (t2 - t1 < COOLDOWN_SECONDS) := not_lt.mpr hge
      simp [is_on_cooldown, hstamp, hnot]

/-- C4 witness: for a fresh session the first action at time 0 is accepted;
a second action 0.1 seconds later is within the 0.3 second cooldown and is
rejected with the stamp dict unchanged. -/
theorem C4_cooldown_check_and_stamp_witness :
    is_on_cooldown ((is_on_cooldown (fun _ => none) 0 "s").2) (1/10) "s" =
      (true, (is_on_cooldown (fun _ => none) 0 "s").2) :=
  ((C4_cooldown_check_and_stamp (fun _ => none) 0 (1/10) "s").2.2 rfl).1
    (by norm_num [COOLDOWN_SECONDS])

/-- Sessions absent from the remaining task list keep their inbox across
`gatherSends`. -/
theorem gatherSends_other (faulty : String → Bool) (message : String) :
    ∀ (l : List String) (inboxes : String → List String) (c : String),
      c ∉ l → (gatherSends faulty message l inboxes).1 c = inboxes c := by
  intro l
  induction l with
  | nil => intro inboxes c _; rfl
  | cons a rest ih =>
    intro inboxes c hc
    simp only [List.mem_cons, not_or] at hc
    by_cases hf : faulty a = true
    · simp only [gatherSends, send_json, hf, if_true]
      exact ih _ c hc.2
    · simp [gatherSends, send_json, hf, ih, hc.2, beq_eq_false_iff_ne.mpr hc.1]
      exact fun h => absurd h hc.1

/-- Every non-faulty session in the task list receives the message during
`gatherSends`, whatever happens to the other sends. -/
theorem gatherSends_delivers (faulty : String → Bool) (message : String) :
    ∀ (l : List String) (inboxes : String → List String) (c : String),
      l.Nodup → c ∈ l → faulty c = false →
      (gatherSends faulty message l inboxes).1 c = inboxes c ++ [message] := by
  intro l
  induction l with
  | nil => intro _ c hnd hc _; cases hc
  | cons a rest ih =>
    intro inboxes c hnd hc hok
    rcases List.mem_cons.mp hc with rfl | hcr
    · have ha : c ∉ rest := (List.nodup_cons.mp hnd).1
      simp [gatherSends, send_json, hok, gatherSends_other, ha]
    · have hca : c ≠ a := fun h => (List.nodup_cons.mp hnd).1 (h ▸ hcr)
      have hnd2 := (List.nodup_cons.mp hnd).2
      by_cases hf : faulty a = true
      · simp only [gatherSends, send_json, hf, if_true]
        exact ih _ c hnd2 hcr hok
      · simp [gatherSends, send_json, hf, ih, hnd2, hcr, hok,
          beq_eq_false_iff_ne.mpr hca]
        exact fun h => absurd h hca

/-- The gathered result list has one captured outcome per task: no send,
failed or not, is skipped, and no exception escapes as anything but a value. -/
theorem gatherSends_results_length (faulty : String → Bool) (message : String) :
    ∀ (l : List String) (inboxes : String → List String),
      (gatherSends faulty message l inboxes).2.length = l.length := by
  intro l
  induction l with
  | nil => intro _; rfl
  | cons a rest ih =>
    intro inboxes
    by_cases hf : faulty a = true <;>
      simp [gatherSends, send_json, hf, ih]

/-- C8: in one `broadcast` call over distinct registered sessions, a send
failure on any subset of sessions does not prevent delivery to any non-faulty
registered session, and every send's outcome (exception included) is captured
in the gathered result list rather than propagating. -/
theorem C8_broadcast_isolation (conns : List String) (faulty : String → Bool)
    (message : String) (inboxes : String → List String) (c : String)
    (hnd : conns.Nodup) (hc : c ∈ conns) (hok : faulty c = false) :
    (broadcast conns faulty message inboxes).1 c = inboxes c ++ [message] ∧
    (broadcast conns faulty message inboxes).2.length = conns.length := by
  have hne : conns.isEmpty = false := by
    cases conns with
    | nil => cases hc
    | cons a rest => rfl
  simp only [broadcast, hne, if_false]
  exact ⟨gatherSends_delivers faulty message conns inboxes c hnd hc hok,
    gatherSends_results_length faulty message conns inboxes⟩

/-- C8 witness: with sessions `a` and `b` registered and `a`'s transport
forced to fail, the broadcast still delivers to `b` and both outcomes are
gathered. -/
theorem C8_broadcast_isolation_witness :
    (broadcast ["a", "b"] (fun s => s == "a") "m" (fun _ => [])).1 "b" = [] ++ ["m"] ∧
    (broadcast ["a", "b"] (fun s => s == "a") "m" (fun _ => [])).2.length = 2 :=
  C8_broadcast_isolation ["a", "b"] (fun s => s == "a") "m" (fun _ => []) "b"
    (by decide) (by decide) (by decide)

/-- Position characterization of the lifecycle broadcast trace: positions
below `2*n` alternate `new_round` (even) and `round_end` (odd). -/
theorem game_loop_trace_pos (n : ℕ) :
    ∀ k : ℕ, (game_loop_trace n)[k]? =
      if k < 2 * n then
        some (if k % 2 = 0 then LoopEvent.new_round else LoopEvent.round_end)
      else none := by
  induction n with
  | zero => intro k; simp [game_loop_trace]
  | succ n ih =>
    intro k
    have hexp : game_loop_trace (n + 1) =
        LoopEvent.new_round :: LoopEvent.round_end :: game_loop_trace n := by
      simp [game_loop_trace, game_loop_iteration, List.replicate_succ]
    rw [hexp]
    rcases k with _ | _ | k
    · rw [if_pos (show 0 < 2 * (n + 1) by omega)]; rfl
    · rw [if_pos (show 0 + 1 < 2 * (n + 1) by omega)]; simp
    · simp only [List.getElem?_cons_succ]
      rw [ih k]
      have h2 : (k + 1 + 1) % 2 = k % 2 := by omega
      by_cases hk : k < 2 * n
      · rw [if_pos hk, h2, if_pos (show k + 1 + 1 < 2 * (n + 1) by omega)]
      · rw [if_neg hk, if_neg (show ¬ (k + 1 + 1 < 2 * (n + 1)) by omega)]

/-- C9: in the broadcast trace of the round lifecycle loop, between any two
consecutive `new_round` broadcasts exactly one `round_end` broadcast
occurs. -/
theorem C9_one_round_end_between_new_rounds (n i j : ℕ)
    (hi : (game_loop_trace n)[i]? = some LoopEvent.new_round)
    (hj : (game_loop_trace n)[j]? = some LoopEvent.new_round)
    (hij : i < j)
    (hbetween : ∀ k, i < k → k < j →
      (game_loop_trace n)[k]? ≠ some LoopEvent.new_round) :
    ((Finset.Ioo i j).filter
      (fun k => (game_loop_trace n)[k]? = some LoopEvent.round_end)).card = 1 := by
  have hchar := game_loop_trace_pos n
  have hifacts : i < 2 * n ∧ i % 2 = 0 := by
    rw [hchar i] at hi
    by_cases hlt : i < 2 * n
    · rw [if_pos hlt] at hi
      refine ⟨hlt, ?_⟩
      by_cases he : i % 2 = 0
      · exact he
      · rw [if_neg he] at hi; exact absurd hi (by decide)
    · rw [if_neg hlt] at hi; cases hi
  have hjfacts : j < 2 * n ∧ j % 2 = 0 := by
    rw [hchar j] at hj
    by_cases hlt : j < 2 * n
    · rw [if_pos hlt] at hj
      refine ⟨hlt, ?_⟩
      by_cases he : j % 2 = 0
      · exact he
      · rw [if_neg he] at hj; exact absurd hj (by decide)
    · rw [if_neg hlt] at hj; cases hj
  obtain ⟨hiL, hiE⟩ := hifacts
  obtain ⟨hjL, hjE⟩ := hjfacts
  have hj_eq : j = i + 2 := by
    by_contra hne
    have hgt : i + 2 < j := by omega
    exact hbetween (i + 2) (by omega) hgt
      (by rw [hchar (i + 2), if_pos (by omega), if_pos (by omega)])
  subst hj_eq
  have hset : Finset.Ioo i (i + 2) = {i + 1} := by
    ext k
    simp only [Finset.mem_Ioo, Finset.mem_singleton]
    omega
  have hmid : (game_loop_trace n)[i + 1]? = some LoopEvent.round_end := by
    rw [hchar (i + 1), if_pos (by omega), if_neg (by omega)]
  rw [hset, Finset.filter_singleton, if_pos hmid]
  simp

/-- C9 witness: in the two-iteration trace the consecutive `new_round`
broadcasts sit at positions 0 and 2 with exactly one `round_end` between. -/
theorem C9_one_round_end_between_new_rounds_witness :
    ((Finset.Ioo 0 2).filter
      (fun k => (game_loop_trace 2)[k]? = some LoopEvent.round_end)).card = 1 :=
  C9_one_round_end_between_new_rounds 2 0 2 (by decide) (by decide) (by decide)
    (fun k h1 h2 => by
      have hk : k = 1 := by omega
      subst hk
      decide)

/-- Sample server state: empty deck, no round started, fresh cooldown dict,
empty leaderboard. -/
def st0 : ServerState :=
  { game := { cards := [], round_end_time := none },
    last_click_time := fun _ => none, leaderboard := fun _ => 0 }

/-- C3 counterexample: the claim requires a scoped error reply for every
malformed guess message; on a message missing its `action` key the handler
hits the `continue` in the key-validation branch and sends nothing, so the
reply list is empty. -/
theorem C3_counterexample :
    (handle_message st0 0 "c" "n" { action := none, card_id := some "x" }).replies = [] :=
  rfl

/-- C3 amended: every malformed guess message (missing the action field or
the card_id field) is silently skipped: no reply of any kind is sent to any
session, no state is mutated (no score update, no cooldown stamp, no
round-state change), and no broadcast is performed. -/
theorem C3_malformed_silently_skipped (st : ServerState) (now : ℚ)
    (client_id nickname : String) (data : InMsg)
    (h : data.action = none ∨ data.card_id = none) :
    handle_message st now client_id nickname data =
      { state := st, replies := [], broadcasts := [], score_updates := [] } := by
  rcases data with ⟨action, card_id⟩
  rcases h with h | h
  · subst h; rfl
  · subst h
    rcases action with _ | a
    · rfl
    · rfl

/-- C3 witness: concrete malformed message at a concrete state. -/
theorem C3_malformed_silently_skipped_witness :
    handle_message st0 0 "c" "n" { action := none, card_id := some "x" } =
      { state := st0, replies := [], broadcasts := [], score_updates := [] } :=
  C3_malformed_silently_skipped st0 0 "c" "n"
    { action := none, card_id := some "x" } (Or.inl rfl)

/-- C6: for a well-formed guess, an inactive round draws a scoped error reply
and leaves all state untouched; an active round whose deck lacks the card id
yields no score update, no broadcast, no leaderboard change and no feedback
reply; a guess passing the cooldown gate on a present card produces exactly
one score update, one feedback reply and one leaderboard broadcast; and any
score update, broadcast or feedback reply implies the round was active and
the card id was in the deck. -/
theorem C6_guess_requires_active_round_and_card (st : ServerState) (now : ℚ)
    (client_id nickname action card_id : String) :
    (is_round_active st.game now = false →
      handle_message st now client_id nickname ⟨some action, some card_id⟩ =
        { state := st, replies := [OutMsg.error "Round not active."],
          broadcasts := [], score_updates := [] }) ∧
    (is_round_active st.game now = true →
      st.game.cards.find? (fun c => c.id == card_id) = none →
      (handle_message st now client_id nickname ⟨some action, some card_id⟩).score_updates
          = [] ∧
      (handle_message st now client_id nickname ⟨some action, some card_id⟩).broadcasts
          = [] ∧
      (handle_message st now client_id nickname
          ⟨some action, some card_id⟩).state.leaderboard = st.leaderboard ∧
      ((handle_message st now client_id nickname ⟨some action, some card_id⟩).replies.filter
          (fun r => is_feedback r)) = []) ∧
    (∀ card, is_round_active st.game now = true →
      (is_on_cooldown st.last_click_time now client_id).1 = false →
      st.game.cards.find? (fun c => c.id == card_id) = some card →
      handle_message st now client_id nickname ⟨some action, some card_id⟩ =
        { state := { st with
              last_click_time := (is_on_cooldown st.last_click_time now client_id).2,
              leaderboard := (update_score st.leaderboard client_id nickname
                (calculate_score st.game now
                  (if action == "approve" then "legitimo" else "pirata") card)).2 },
          replies := [OutMsg.feedback card_id
            (decide (calculate_score st.game now
              (if action == "approve" then "legitimo" else "pirata") card > 0))
            card.label
            (calculate_score st.game now
              (if action == "approve" then "legitimo" else "pirata") card)
            (update_score st.leaderboard client_id nickname
              (calculate_score st.game now
                (if action == "approve" then "legitimo" else "pirata") card)).1],
          broadcasts := [OutMsg.leaderboard_update],
          score_updates := [(client_id, nickname,
            calculate_score st.game now
              (if action == "approve" then "legitimo" else "pirata") card)] }) ∧
    (((handle_message st now client_id nickname
          ⟨some action, some card_id⟩).score_updates ≠ [] ∨
      (handle_message st now client_id nickname
          ⟨some action, some card_id⟩).broadcasts ≠ [] ∨
      ((handle_message st now client_id nickname ⟨some action, some card_id⟩).replies.filter
          (fun r => is_feedback r)) ≠ []) →
      is_round_active st.game now = true ∧
      st.game.cards.find? (fun c => c.id == card_id) ≠ none) := by
  refine ⟨?_, ?_, ?_, ?_⟩
  · intro hfalse
    simp only [handle_message, hfalse, eq_self_iff_true, if_true]
  · intro hactive hfind
    have hfne : ¬ (is_round_active st.game now = false) := by simp [hactive]
    rcases hco : is_on_cooldown st.last_click_time now client_id with ⟨b, stamped⟩
    cases b with
    | false =>
        simp [handle_message, if_neg hfne, hco, hfind, is_feedback]
    | true =>
        simp [handle_message, if_neg hfne, hco, is_feedback]
  · intro card hactive hcool hfind
    have hfne : ¬ (is_round_active st.game now = false) := by simp [hactive]
    rcases hco : is_on_cooldown st.last_click_time now client_id with ⟨b, stamped⟩
    have hb : b = false := by rw [hco] at hcool; exact hcool
    subst hb
    simp only [handle_message, if_neg hfne, hco, hfind]
  · intro hor
    by_cases hact : is_round_active st.game now = true
    · refine ⟨hact, ?_⟩
      have hfne : ¬ (is_round_active st.game now = false) := by simp [hact]
      rcases hfind : st.game.cards.find? (fun c => c.id == card_id) with _ | card
      · exfalso
        rcases hco : is_on_cooldown st.last_click_time now client_id with ⟨b, stamped⟩
        cases b with
        | false =>
            simp only [handle_message, if_neg hfne, hco, hfind] at hor
            rcases hor with h | h | h <;> exact h rfl
        | true =>
            simp only [handle_message, if_neg hfne, hco] at hor
            rcases hor with h | h | h
            · exact h rfl
            · exact h rfl
            · simp [is_feedback] at h
      · rw [hfind]
        exact Option.some_ne_none card
    · exfalso
      have hfalse : is_round_active st.game now = false := by
        cases h : is_round_active st.game now
        · rfl
        · exact absurd h hact
      simp only [handle_message, hfalse, eq_self_iff_true, if_true] at hor
      rcases hor with h | h | h
      · exact h rfl
      · exact h rfl
      · simp [is_feedback] at h

/-- C6 witness: with an active one-card round, a well-formed guess on an
absent card id produces no score update, no broadcast, no leaderboard change
and no feedback reply. -/
theorem C6_guess_requires_active_round_and_card_witness :
    (handle_message
        { game := { cards := [mkCard "legitimo" 1], round_end_time := some 1 },
          last_click_time := fun _ => none, leaderboard := fun _ => 0 }
        0 "c" "n" ⟨some "approve", some "missing"⟩).score_updates = [] ∧
    (handle_message
        { game := { cards := [mkCard "legitimo" 1], round_end_time := some 1 },
          last_click_time := fun _ => none, leaderboard := fun _ => 0 }
        0 "c" "n" ⟨some "approve", some "missing"⟩).broadcasts = [] ∧
    (handle_message
        { game := { cards := [mkCard "legitimo" 1], round_end_time := some 1 },
          last_click_time := fun _ => none, leaderboard := fun _ => 0 }
        0 "c" "n" ⟨some "approve", some "missing"⟩).state.leaderboard =
      (fun _ => (0 : ℤ)) ∧
    ((handle_message
        { game := { cards := [mkCard "legitimo" 1], round_end_time := some 1 },
          last_click_time := fun _ => none, leaderboard := fun _ => 0 }
        0 "c" "n" ⟨some "approve", some "missing"⟩).replies.filter
      (fun r => is_feedback r)) = [] :=
  (C6_guess_requires_active_round_and_card
      { game := { cards := [mkCard "legitimo" 1], round_end_time := some 1 },
        last_click_time := fun _ => none, leaderboard := fun _ => 0 }
      0 "c" "n" "approve" "missing").2.1 (by decide) (by decide)

/-- C10: a well-formed guess that passes the round-active and cooldown gates
stamps the session's cooldown before the card lookup, so a guess on a card id
absent from the deck consumes the cooldown while producing no reply, no score
update and no broadcast; a second well-formed guess from the same session
within the cooldown interval (round still active) is then rejected with a
cooldown error and no further state change. -/
theorem C10_unmatched_card_consumes_cooldown (st : ServerState) (now t2 : ℚ)
    (client_id nickname nickname2 action action2 card_id card_id2 : String)
    (hactive : is_round_active st.game now = true)
    (hcool : (is_on_cooldown st.last_click_time now client_id).1 = false)
    (hmiss : st.game.cards.find? (fun c => c.id == card_id) = none)
    (hlt : t2 - now < COOLDOWN_SECONDS)
    (hactive2 : is_round_active st.game t2 = true) :
    (handle_message st now client_id nickname
        ⟨some action, some card_id⟩).state.last_click_time client_id = some now ∧
    (handle_message st now client_id nickname ⟨some action, some card_id⟩).replies = [] ∧
    (handle_message st now client_id nickname ⟨some action, some card_id⟩).broadcasts = [] ∧
    (handle_message st now client_id nickname
        ⟨some action, some card_id⟩).score_updates = [] ∧
    handle_message
        (handle_message st now client_id nickname ⟨some action, some card_id⟩).state
        t2 client_id nickname2 ⟨some action2, some card_id2⟩ =
      { state := (handle_message st now client_id nickname
            ⟨some action, some card_id⟩).state,
        replies := [OutMsg.error "Cooldown active."],
        broadcasts := [], score_updates := [] } := by
  have hfne : ¬ (is_round_active st.game now = false) := by simp [hactive]
  rcases hco : is_on_cooldown st.last_click_time now client_id with ⟨b, stamped⟩
  have hb : b = false := by rw [hco] at hcool; exact hcool
  subst hb
  have hstamp : stamped client_id = some now := by
    have h := is_on_cooldown_accept_stamp st.last_click_time now client_id hcool
    rw [hco] at h
    exact h
  have hred : handle_message st now client_id nickname ⟨some action, some card_id⟩ =
      { state := { st with last_click_time := stamped },
        replies := [], broadcasts := [], score_updates := [] } := by
    simp only [handle_message, if_neg hfne, hco, hmiss]
  rw [hred]
  refine ⟨hstamp, rfl, rfl, rfl, ?_⟩
  have hfne2 : ¬ (is_round_active
      ({ st with last_click_time := stamped } : ServerState).game t2 = false) := by
    have hg : ({ st with last_click_time := stamped } : ServerState).game = st.game := rfl
    rw [hg, hactive2]
    simp
  have hco2 : is_on_cooldown
      ({ st with last_click_time := stamped } : ServerState).last_click_time t2 client_id =
      (true, stamped) := by
    have hl : ({ st with last_click_time := stamped } : ServerState).last_click_time =
        stamped := rfl
    rw [hl]
    simp [is_on_cooldown, hstamp, hlt]
  simp only [handle_message, if_neg hfne2, hco2]

/-- C10 witness: concrete active round with an empty deck; the first guess at
time 0 stamps the cooldown despite matching no card, and a second guess 0.1
seconds later is rejected. -/
theorem C10_unmatched_card_consumes_cooldown_witness :
    (handle_message
        { game := { cards := [], round_end_time := some 1 },
          last_click_time := fun _ => none, leaderboard := fun _ => 0 }
        0 "c" "n" ⟨some "approve", some "x"⟩).state.last_click_time "c" = some 0 ∧
    (handle_message
        { game := { cards := [], round_end_time := some 1 },
          last_click_time := fun _ => none, leaderboard := fun _ => 0 }
        0 "c" "n" ⟨some "approve", some "x"⟩).replies = [] ∧
    (handle_message
        { game := { cards := [], round_end_time := some 1 },
          last_click_time := fun _ => none, leaderboard := fun _ => 0 }
        0 "c" "n" ⟨some "approve", some "x"⟩).broadcasts = [] ∧
    (handle_message
        { game := { cards := [], round_end_time := some 1 },
          last_click_time := fun _ => none, leaderboard := fun _ => 0 }
        0 "c" "n" ⟨some "approve", some "x"⟩).score_updates = [] ∧
    handle_message
        (handle_message
          { game := { cards := [], round_end_time := some 1 },
            last_click_time := fun _ => none, leaderboard := fun _ => 0 }
          0 "c" "n" ⟨some "approve", some "x"⟩).state
        (1/10) "c" "n" ⟨some "approve", some "x"⟩ =
      { state := (handle_message
            { game := { cards := [], round_end_time := some 1 },
              last_click_time := fun _ => none, leaderboard := fun _ => 0 }
            0 "c" "n" ⟨some "approve", some "x"⟩).state,
        replies := [OutMsg.error "Cooldown active."],
        broadcasts := [], score_updates := [] } :=
  C10_unmatched_card_consumes_cooldown
    { game := { cards := [], round_end_time := some 1 },
      last_click_time := fun _ => none, leaderboard := fun _ => 0 }
    0 (1/10) "c" "n" "n" "approve" "approve" "x" "x"
    (by decide) rfl rfl (by norm_num [COOLDOWN_SECONDS])
    (by norm_num [is_round_active, decide_eq_true_eq])
